import Mathlib

/-!
Verification of the order-status subsystem of the Badshah Kitchen ordering
application: the status validator, the kitchen and customer fetch queries,
the kitchen status-update and reject operations, the session identity
helper, and checkout order submission. Each definition is a shallow
embedding of the corresponding function in the application source
(src/app/kitchen/page.tsx, src/app/layout.tsx OrdersPage, the session
helper module, src/lib/orderSubmission.ts, src/lib/orderUtils.ts).
Asynchronous store calls are modelled by passing the store tables and the
store response outcomes (transport error, row-level-security decision)
explicitly.
-/

/-- Model of JavaScript String.prototype.toUpperCase restricted to the
ASCII range, which covers every status value that occurs. -/
def strUpper (s : String) : String := ⟨s.data.map Char.toUpper⟩

/-- Model of JavaScript String.prototype.trim: drop whitespace at both
ends (used by the submitOrder input validation). -/
def strTrim (s : String) : String :=
  ⟨((s.data.dropWhile Char.isWhitespace).reverse.dropWhile Char.isWhitespace).reverse⟩

/-- One snapshotted line item of an order: an order_items row joined with
the name of its menu item, as selected by the two fetch queries. -/
structure OrderItem where
  id : String
  menu_item_id : String
  quantity : Nat
  price_at_time : Nat
  item_name : String
deriving Repr, DecidableEq

/-- One row of the orders table joined with its order_items, as returned
by the fetch queries of the kitchen page and the customer orders page.
Timestamps are modelled as natural numbers. -/
structure OrderRow where
  id : String
  order_number : Nat
  session_id : String
  customer_name : Option String
  customer_phone : Option String
  status : String
  total_amount : Nat
  created_at : Nat
  order_items : List OrderItem
deriving Repr, DecidableEq

/-- The five status values recognised by the kitchen page validator
(src/app/kitchen/page.tsx line 167). -/
def validStatuses : List String := ["PLACED", "ACCEPTED", "PREPARING", "READY", "COMPLETED"]

/-- Translation of isValidTransition (src/app/kitchen/page.tsx lines
152-169). The source uppercases both arguments, rejects a transition to
the same status, rejects any transition out of COMPLETED, and otherwise
accepts whenever the proposed status is one of the five recognised
values - the comment in the source reads: allow both forward and
backward transitions. -/
def isValidTransition (currentStatus newStatus : String) : Bool :=
  if strUpper currentStatus == strUpper newStatus then false
  else if strUpper currentStatus == "COMPLETED" then false
  else validStatuses.contains (strUpper newStatus)

/-- The ordering used by both fetch queries: created_at descending,
newest first. -/
def newestFirst (a b : OrderRow) : Prop := b.created_at ≤ a.created_at

instance : DecidableRel newestFirst := fun a b => Nat.decLe b.created_at a.created_at

instance : IsTotal OrderRow newestFirst := ⟨fun a b => Nat.le_total b.created_at a.created_at⟩

instance : IsTrans OrderRow newestFirst := ⟨fun _ _ _ h1 h2 => Nat.le_trans h2 h1⟩

/-- Translation of the kitchen page fetchOrders query (src/app/kitchen/
page.tsx lines 70-100): select ALL orders with their order_items, ordered
by created_at descending. The source carries no status filter - its
comment reads: Fetch all orders including completed. -/
def kitchenFetchOrders (db : List OrderRow) : List OrderRow :=
  List.insertionSort newestFirst db

/-- Translation of the customer OrdersPage fetchOrders query
(src/app/layout.tsx OrdersPage): select the orders whose session_id
equals the caller session identifier, with their order_items, ordered by
created_at descending. -/
def customerFetchOrders (sessionId : String) (db : List OrderRow) : List OrderRow :=
  List.insertionSort newestFirst (db.filter (fun o => o.session_id == sessionId))

/-- Outcome classification of one call to updateOrderStatus, following
the branches of the source (src/app/kitchen/page.tsx lines 172-235).
invalidTransition carries the two statuses that the alert message names. -/
inductive UpdateResult where
  | notFound
  | invalidTransition (current proposed : String)
  | storeError (msg : String)
  | writeBlocked
  | success
deriving Repr, DecidableEq

/-- The store side of the conditional write: update the status of the
rows whose id matches, returning the new table and the number of rows the
select clause returns. rlsAllows models the row-level-security policy:
when it is false the write affects no rows and the call still succeeds
with an empty row list - the silently dropped shape. -/
def storeUpdateStatus (db : List OrderRow) (orderId upStatus : String) (rlsAllows : Bool) :
    List OrderRow × Nat :=
  if rlsAllows then
    ((db.map fun o => if o.id == orderId then { o with status := upStatus } else o),
     (db.filter fun o => o.id == orderId).length)
  else (db, 0)

/-- The full state after one call to updateOrderStatus: its result, the
kitchen page local orders state, the orders table, and whether a store
write was issued at all. -/
structure UpdateOutcome where
  result : UpdateResult
  view : List OrderRow
  db : List OrderRow
  storeWriteAttempted : Bool
deriving Repr, DecidableEq

/-- Translation of updateOrderStatus (src/app/kitchen/page.tsx lines
172-235): locate the order in the local view (error when absent), run the
validator (error naming both statuses when rejected, no store call),
issue the conditional write; a transport error or a zero-row response
leaves both the local view and the table unchanged; on at least one row
returned, the local view is updated optimistically with the uppercased
status. -/
def updateOrderStatus (view db : List OrderRow) (orderId newStatus : String)
    (transportError : Option String) (rlsAllows : Bool) : UpdateOutcome :=
  match view.find? (fun o => o.id == orderId) with
  | none => ⟨.notFound, view, db, false⟩
  | some order =>
    if !isValidTransition order.status newStatus then
      ⟨.invalidTransition order.status newStatus, view, db, false⟩
    else
      match transportError with
      | some msg => ⟨.storeError msg, view, db, true⟩
      | none =>
        let res := storeUpdateStatus db orderId (strUpper newStatus) rlsAllows
        if res.2 == 0 then ⟨.writeBlocked, view, db, true⟩
        else
          ⟨.success,
           view.map (fun o => if o.id == orderId then { o with status := strUpper newStatus } else o),
           res.1, true⟩

/-- Translation of rejectOrder (src/app/kitchen/page.tsx lines 237-243):
after a confirmation dialog, call updateOrderStatus with COMPLETED.
confirmed = false models the operator cancelling the dialog, in which
case nothing happens. -/
def rejectOrder (view db : List OrderRow) (orderId : String) (confirmed : Bool)
    (transportError : Option String) (rlsAllows : Bool) : Option UpdateOutcome :=
  if confirmed then some (updateOrderStatus view db orderId "COMPLETED" transportError rlsAllows)
  else none

/-- Translation of getSessionId (session helper module): the localStorage
slot for the session key is an Option String; when a value is stored it
is returned unchanged, otherwise the freshly generated identifier
(freshUUID models the random generator output) is stored and returned. -/
def getSessionId (stored : Option String) (freshUUID : String) : String × Option String :=
  match stored with
  | some s => (s, some s)
  | none => (freshUUID, some freshUUID)

/-- Translation of clearSession (session helper module): remove the
stored session identifier. -/
def clearSession (_stored : Option String) : Option String := none

/-- A cart entry (src/types/cart.ts CartItem): full menu item data plus a
quantity; id is the menu item identifier, price is in minor units. -/
structure CartItem where
  id : String
  name : String
  price : Nat
  category : Option String
  quantity : Nat
deriving Repr, DecidableEq

/-- A row inserted into order_items (src/lib/orderUtils.ts
prepareOrderItems builds exactly these three fields). -/
structure OrderItemInsert where
  order_id : String
  menu_item_id : String
  quantity : Nat
deriving Repr, DecidableEq

/-- Translation of prepareOrderItems (src/lib/orderUtils.ts lines 16-22). -/
def prepareOrderItems (cart : List CartItem) (orderId : String) : List OrderItemInsert :=
  cart.map fun item => ⟨orderId, item.id, item.quantity⟩

/-- Translation of calculateOrderTotal (src/lib/orderUtils.ts lines
30-34): sum of price times quantity over the cart. -/
def calculateOrderTotal (cart : List CartItem) : Nat :=
  cart.foldl (fun total item => total + item.price * item.quantity) 0

/-- The orders-table row that submitOrder inserts (src/lib/
orderSubmission.ts lines 67-77): the store assigns the id. -/
structure NewOrderRow where
  id : String
  session_id : String
  customer_name : String
  customer_phone : String
  status : String
  total_amount : Nat
deriving Repr, DecidableEq

/-- The two store tables touched by checkout. -/
structure OrderTables where
  orders : List NewOrderRow
  order_items : List OrderItemInsert
deriving Repr, DecidableEq

/-- The value submitOrder resolves to (src/lib/orderSubmission.ts
OrderSubmissionResult). -/
structure OrderSubmissionResult where
  success : Bool
  order_id : Option String
  error : Option String
deriving Repr, DecidableEq

/-- Translation of submitOrder (src/lib/orderSubmission.ts lines 34-172):
validate the inputs, insert the order row, then insert the order_items
rows in a second, separate call. newOrderId models the id the store
assigns; orderInsertError and itemsInsertError model the store response
to each of the two inserts. When the items insert fails the order row has
already been inserted and is left in place - the source logs: Order
exists in database but has no items. -/
def submitOrder (cart : List CartItem) (session_id customer_name customer_phone : String)
    (db : OrderTables) (newOrderId : String)
    (orderInsertError itemsInsertError : Option String) :
    OrderSubmissionResult × OrderTables :=
  if strTrim session_id == "" then (⟨false, none, some "Session ID is required"⟩, db)
  else if strTrim customer_name == "" then (⟨false, none, some "Customer name is required"⟩, db)
  else if strTrim customer_phone == "" then (⟨false, none, some "Customer phone is required"⟩, db)
  else if cart.length == 0 then (⟨false, none, some "Cart is empty"⟩, db)
  else
    match orderInsertError with
    | some msg => (⟨false, none, some ("Failed to create order: " ++ msg)⟩, db)
    | none =>
      let db1 : OrderTables :=
        { db with orders := db.orders ++
            [⟨newOrderId, session_id, customer_name, customer_phone, "PLACED",
              calculateOrderTotal cart⟩] }
      if newOrderId == "" then
        (⟨false, none, some "Order created but ID not returned"⟩, db1)
      else
        match itemsInsertError with
        | some msg =>
          (⟨false, some newOrderId,
            some ("Order created (" ++ newOrderId ++ ") but failed to add items: " ++ msg)⟩, db1)
        | none =>
          (⟨true, some newOrderId, none⟩,
           { db1 with order_items := db1.order_items ++ prepareOrderItems cart newOrderId })

/-- Sample order in the initial PLACED status, used by concrete
instantiations. -/
def placedOrder : OrderRow :=
  ⟨"o1", 1, "sess-1", some "Alice", none, "PLACED", 500, 10,
   [⟨"i1", "m1", 2, 250, "Chai"⟩]⟩

/-- Sample order already in the terminal COMPLETED status. -/
def completedOrder : OrderRow :=
  ⟨"o2", 2, "sess-2", none, none, "COMPLETED", 700, 5, []⟩

/-- The sample PLACED order after a reject has forced it to COMPLETED. -/
def rejectedOrder : OrderRow := { placedOrder with status := "COMPLETED" }

/-- Uppercasing fixes the terminal status literal. -/
theorem strUpper_completed : strUpper "COMPLETED" = "COMPLETED" := rfl

/-- When the current status uppercases to COMPLETED the validator rejects
every proposal. -/
theorem isValidTransition_of_completed (c p : String) (h : strUpper c = "COMPLETED") :
    isValidTransition c p = false := by
  by_cases hc : strUpper c == strUpper p
  · simp [isValidTransition, hc]
  · simp [isValidTransition, hc, h]

/-- When the current status does not uppercase to COMPLETED the validator
accepts a move to COMPLETED. -/
theorem isValidTransition_to_completed (c : String) (h : strUpper c ≠ "COMPLETED") :
    isValidTransition c "COMPLETED" = true := by
  simp [isValidTransition, strUpper_completed, h, validStatuses]

example : isValidTransition "PLACED" "ACCEPTED" = true := by decide
example : isValidTransition "READY" "PLACED" = true := by decide
example : isValidTransition "placed" "Accepted" = true := by decide
example : isValidTransition "PLACED" "PLACED" = false := by decide
example : isValidTransition "COMPLETED" "PLACED" = false := by decide
example : isValidTransition "PLACED" "BOGUS" = false := by decide
example : isValidTransition "BOGUS" "PLACED" = true := by decide

/-- Claim C1 (code defect evidence): the claim requires the validator to
reject every skip-ahead move, but isValidTransition accepts the
skip-ahead PLACED to PREPARING, contradicting the repository's own test
material, which lists PLACED to ACCEPTED as the only move out of PLACED. -/
theorem c1_validator_accepts_skip_ahead :
    isValidTransition "PLACED" "PREPARING" = true := by decide

/-- Claim C2 (counterexample): the kitchen fetch is claimed never to
include a COMPLETED order, yet on a store holding one COMPLETED order the
fetch result contains that order. -/
theorem c2_completed_order_in_kitchen_fetch :
    completedOrder ∈ kitchenFetchOrders [completedOrder] ∧
    completedOrder.status = "COMPLETED" := by decide

/-- Claim C2 (amended): the kitchen fetch retrieves every order in the
store - COMPLETED ones included - each with its line items, ordered
newest-created-first; only the realtime subscription filter excludes
COMPLETED rows. -/
theorem c2_kitchen_fetch_all_orders_newest_first (db : List OrderRow) :
    (∀ o : OrderRow, o ∈ kitchenFetchOrders db ↔ o ∈ db) ∧
    (kitchenFetchOrders db).Sorted newestFirst :=
  ⟨fun _ => (List.perm_insertionSort newestFirst db).mem_iff,
   List.sorted_insertionSort newestFirst db⟩

/-- Claim C3: the validator rejects every no-op proposal and every
proposal out of COMPLETED, and when the located order is COMPLETED the
update operation issues no store write and leaves the table unchanged. -/
theorem c3_noop_and_terminal_rejected :
    (∀ s : String, isValidTransition s s = false) ∧
    (∀ p : String, isValidTransition "COMPLETED" p = false) ∧
    (∀ (view db : List OrderRow) (orderId newStatus : String)
       (transportError : Option String) (rlsAllows : Bool) (order : OrderRow),
       view.find? (fun o => o.id == orderId) = some order →
       strUpper order.status = "COMPLETED" →
       (updateOrderStatus view db orderId newStatus transportError rlsAllows).storeWriteAttempted
           = false ∧
       (updateOrderStatus view db orderId newStatus transportError rlsAllows).db = db) := by
  refine ⟨fun s => by simp [isValidTransition], fun p => isValidTransition_of_completed _ _ rfl, ?_⟩
  intro view db orderId newStatus transportError rlsAllows order hf hc
  have hv : isValidTransition order.status newStatus = false :=
    isValidTransition_of_completed _ _ hc
  simp [updateOrderStatus, hf, hv]

/-- Claim C3 witness: concrete instantiation at an order already in the
COMPLETED status. -/
theorem c3_noop_and_terminal_rejected_witness :
    (updateOrderStatus [completedOrder] [completedOrder] "o2" "READY" none true).storeWriteAttempted
        = false ∧
    (updateOrderStatus [completedOrder] [completedOrder] "o2" "READY" none true).db
        = [completedOrder] :=
  c3_noop_and_terminal_rejected.2.2 [completedOrder] [completedOrder] "o2" "READY" none true
    completedOrder (by decide) (by decide)

/-- Claim C4: an update whose target identifier is absent from the local
view fails with the not-found result and performs no store call, and an
update whose transition the validator rejects fails with a result naming
both the current and the proposed status and performs no store write; in
both cases the local view and the table are unchanged. -/
theorem c4_notfound_and_invalid_no_write (view db : List OrderRow)
    (orderId newStatus : String) (transportError : Option String) (rlsAllows : Bool) :
    (view.find? (fun o => o.id == orderId) = none →
      updateOrderStatus view db orderId newStatus transportError rlsAllows =
        ⟨.notFound, view, db, false⟩) ∧
    (∀ order : OrderRow, view.find? (fun o => o.id == orderId) = some order →
      isValidTransition order.status newStatus = false →
      updateOrderStatus view db orderId newStatus transportError rlsAllows =
        ⟨.invalidTransition order.status newStatus, view, db, false⟩) := by
  constructor
  · intro hf
    simp [updateOrderStatus, hf]
  · intro order hf hv
    simp [updateOrderStatus, hf, hv]

/-- Claim C4 witness: concrete instantiations of the not-found branch and
of the rejected-transition branch. -/
theorem c4_notfound_and_invalid_no_write_witness :
    updateOrderStatus [] [completedOrder] "missing" "ACCEPTED" none true =
      ⟨.notFound, [], [completedOrder], false⟩ ∧
    updateOrderStatus [completedOrder] [completedOrder] "o2" "READY" none true =
      ⟨.invalidTransition "COMPLETED" "READY", [completedOrder], [completedOrder], false⟩ :=
  ⟨(c4_notfound_and_invalid_no_write [] [completedOrder] "missing" "ACCEPTED" none true).1
     (by decide),
   (c4_notfound_and_invalid_no_write [completedOrder] [completedOrder] "o2" "READY" none true).2
     completedOrder (by decide) (by decide)⟩

/-- Claim C5: when the update reaches the store and no transport error
occurs, a zero-row response yields the distinct write-blocked failure
with the local view and the table both unchanged, and a response with at
least one row yields success with the local view updated optimistically
to the uppercased new status. -/
theorem c5_zero_rows_vs_success (view db : List OrderRow) (orderId newStatus : String)
    (rlsAllows : Bool) (order : OrderRow)
    (hf : view.find? (fun o => o.id == orderId) = some order)
    (hv : isValidTransition order.status newStatus = true) :
    ((storeUpdateStatus db orderId (strUpper newStatus) rlsAllows).2 = 0 →
      updateOrderStatus view db orderId newStatus none rlsAllows =
        ⟨.writeBlocked, view, db, true⟩) ∧
    ((storeUpdateStatus db orderId (strUpper newStatus) rlsAllows).2 ≠ 0 →
      updateOrderStatus view db orderId newStatus none rlsAllows =
        ⟨.success,
         view.map (fun o => if o.id == orderId then { o with status := strUpper newStatus } else o),
         (storeUpdateStatus db orderId (strUpper newStatus) rlsAllows).1, true⟩) := by
  constructor
  · intro h0
    simp [updateOrderStatus, hf, hv, h0]
  · intro h0
    simp [updateOrderStatus, hf, hv, h0]

/-- Claim C5 witness: on the sample PLACED order, a policy-blocked write
gives the write-blocked outcome with unchanged state, and a permitted
write gives the optimistic success outcome. -/
theorem c5_zero_rows_vs_success_witness :
    updateOrderStatus [placedOrder] [placedOrder] "o1" "ACCEPTED" none false =
      ⟨.writeBlocked, [placedOrder], [placedOrder], true⟩ ∧
    updateOrderStatus [placedOrder] [placedOrder] "o1" "ACCEPTED" none true =
      ⟨.success, [{ placedOrder with status := "ACCEPTED" }],
       [{ placedOrder with status := "ACCEPTED" }], true⟩ :=
  ⟨(c5_zero_rows_vs_success [placedOrder] [placedOrder] "o1" "ACCEPTED" false placedOrder
      (by decide) (by decide)).1 (by decide),
   ((c5_zero_rows_vs_success [placedOrder] [placedOrder] "o1" "ACCEPTED" true placedOrder
      (by decide) (by decide)).2 (by decide)).trans (by decide)⟩

/-- Claim C6 (counterexample): a rejected order does appear in the next
kitchen fetch - rejecting the sample PLACED order succeeds and marks it
COMPLETED, and the kitchen fetch over the resulting table still returns
it. -/
theorem c6_rejected_order_still_fetched :
    rejectOrder [placedOrder] [placedOrder] "o1" true none true =
      some ⟨.success, [rejectedOrder], [rejectedOrder], true⟩ ∧
    rejectedOrder ∈ kitchenFetchOrders [rejectedOrder] ∧
    rejectedOrder.status = "COMPLETED" := by decide

/-- Claim C6 (amended): after confirmation, Reject runs the proposed
COMPLETED status through the ordinary validator, which accepts it for
every order not already COMPLETED; on a permitted write the order is
marked COMPLETED in the table, and - the kitchen fetch returning all
orders - the rejected order still appears in the next kitchen fetch. -/
theorem c6_reject_completes_order (view db : List OrderRow) (order row : OrderRow)
    (orderId : String)
    (hf : view.find? (fun o => o.id == orderId) = some order)
    (hnc : strUpper order.status ≠ "COMPLETED")
    (hrow : row ∈ db) (hid : row.id = orderId) :
    ∃ out : UpdateOutcome,
      rejectOrder view db orderId true none true = some out ∧
      out.result = .success ∧
      { row with status := "COMPLETED" } ∈ kitchenFetchOrders out.db := by
  have hv : isValidTransition order.status "COMPLETED" = true :=
    isValidTransition_to_completed _ hnc
  have hmem : row ∈ db.filter (fun o => o.id == orderId) := by
    simp [List.mem_filter, hrow, hid]
  have hlen : (db.filter fun o => o.id == orderId).length ≠ 0 := by
    intro h0
    rw [List.length_eq_zero] at h0
    rw [h0] at hmem
    exact absurd hmem (List.not_mem_nil row)
  refine ⟨updateOrderStatus view db orderId "COMPLETED" none true, by simp [rejectOrder], ?_, ?_⟩
  · simp [updateOrderStatus, hf, hv, storeUpdateStatus, hlen]
  · have hdb : (updateOrderStatus view db orderId "COMPLETED" none true).db =
        db.map (fun o => if o.id == orderId then { o with status := strUpper "COMPLETED" } else o) := by
      simp [updateOrderStatus, hf, hv, storeUpdateStatus, hlen]
    rw [hdb, strUpper_completed]
    have hmap : { row with status := "COMPLETED" } ∈
        db.map (fun o => if o.id == orderId then { o with status := "COMPLETED" } else o) := by
      have hin := List.mem_map_of_mem
        (fun o => if o.id == orderId then { o with status := "COMPLETED" } else o) hrow
      simpa [hid] using hin
    exact ((List.perm_insertionSort newestFirst _).mem_iff).2 hmap

/-- Claim C6 witness: concrete instantiation of the amended reject
behaviour on the sample PLACED order. -/
theorem c6_reject_completes_order_witness :
    ∃ out : UpdateOutcome,
      rejectOrder [placedOrder] [placedOrder] "o1" true none true = some out ∧
      out.result = .success ∧
      { placedOrder with status := "COMPLETED" } ∈ kitchenFetchOrders out.db :=
  c6_reject_completes_order [placedOrder] [placedOrder] placedOrder placedOrder "o1"
    (by decide) (by decide) (by decide) (by decide)

/-- Claim C7: the customer fetch returns exactly the orders of the store
whose session_id equals the caller session identifier, each with its line
items, ordered newest-created-first; an order owned by a different
session is never included. -/
theorem c7_customer_fetch_session_scoped (s : String) (db : List OrderRow) :
    (∀ o : OrderRow, o ∈ customerFetchOrders s db ↔ o ∈ db ∧ o.session_id = s) ∧
    (customerFetchOrders s db).Sorted newestFirst := by
  constructor
  · intro o
    have h1 : o ∈ customerFetchOrders s db ↔ o ∈ db.filter (fun x => x.session_id == s) :=
      (List.perm_insertionSort newestFirst _).mem_iff
    rw [h1, List.mem_filter]
    simp
  · exact List.sorted_insertionSort newestFirst _

/-- Claim C8: on first use the session provider stores and returns the
freshly generated identifier; on every later use it returns the stored
value unchanged; after a clear, the next access stores and returns the
newly generated identifier, which differs from the cleared one whenever
the generator output does. -/
theorem c8_session_identity (fresh old s : String) (h : fresh ≠ old) :
    getSessionId none fresh = (fresh, some fresh) ∧
    getSessionId (some s) fresh = (s, some s) ∧
    (getSessionId (clearSession (some old)) fresh).1 = fresh ∧
    (getSessionId (clearSession (some old)) fresh).1 ≠ old :=
  ⟨rfl, rfl, rfl, h⟩

/-- Claim C8 witness: concrete session lifecycle with two distinct
identifiers. -/
theorem c8_session_identity_witness :
    getSessionId none "uuid-b" = ("uuid-b", some "uuid-b") ∧
    getSessionId (some "uuid-a") "uuid-b" = ("uuid-a", some "uuid-a") ∧
    (getSessionId (clearSession (some "uuid-a")) "uuid-b").1 = "uuid-b" ∧
    (getSessionId (clearSession (some "uuid-a")) "uuid-b").1 ≠ "uuid-a" :=
  c8_session_identity "uuid-b" "uuid-a" "uuid-a" (by decide)

/-- Claim C9 (counterexample): checkout is not atomic - with a valid
cart and customer data, when the order insert succeeds and the items
insert then fails, the submission reports failure while the store holds
the order row with no line items at all. -/
theorem c9_orphan_order_row :
    (submitOrder [⟨"m1", "Chai", 500, none, 2⟩] "sess-1" "Alice" "12345" ⟨[], []⟩
        "order-9" none (some "blocked")).1.success = false ∧
    (submitOrder [⟨"m1", "Chai", 500, none, 2⟩] "sess-1" "Alice" "12345" ⟨[], []⟩
        "order-9" none (some "blocked")).2.orders =
      [⟨"order-9", "sess-1", "Alice", "12345", "PLACED", 1000⟩] ∧
    (submitOrder [⟨"m1", "Chai", 500, none, 2⟩] "sess-1" "Alice" "12345" ⟨[], []⟩
        "order-9" none (some "blocked")).2.order_items = [] := by decide

/-- Claim C9 (amended): order creation is sequential rather than atomic -
the order row is inserted first, and when the subsequent line-items
insert fails the submission returns failure carrying the orphaned order
identifier while the order row stays in the store and the order_items
table is left untouched. -/
theorem c9_items_failure_keeps_order_row (cart : List CartItem)
    (sid name phone : String) (db : OrderTables) (newId msg : String)
    (hs : strTrim sid ≠ "") (hn : strTrim name ≠ "") (hp : strTrim phone ≠ "")
    (hc : cart ≠ []) (hid : newId ≠ "") :
    (submitOrder cart sid name phone db newId none (some msg)).1.success = false ∧
    (submitOrder cart sid name phone db newId none (some msg)).1.order_id = some newId ∧
    (submitOrder cart sid name phone db newId none (some msg)).2.orders =
      db.orders ++ [⟨newId, sid, name, phone, "PLACED", calculateOrderTotal cart⟩] ∧
    (submitOrder cart sid name phone db newId none (some msg)).2.order_items =
      db.order_items := by
  have hlen : cart.length ≠ 0 := fun h0 => hc (List.length_eq_zero.mp h0)
  simp [submitOrder, hs, hn, hp, hlen, hid]

/-- Claim C9 witness: concrete failed submission over a store that
already holds one order - the new orphaned row is appended and the items
table is unchanged. -/
theorem c9_items_failure_keeps_order_row_witness :
    (submitOrder [⟨"m2", "Samosa", 300, some "Snacks", 1⟩] "sess-7" "Bob" "999"
        ⟨[⟨"order-1", "sess-1", "Alice", "12345", "PLACED", 1000⟩],
         [⟨"order-1", "m1", 2⟩]⟩ "order-2" none (some "rls")).1.success = false ∧
    (submitOrder [⟨"m2", "Samosa", 300, some "Snacks", 1⟩] "sess-7" "Bob" "999"
        ⟨[⟨"order-1", "sess-1", "Alice", "12345", "PLACED", 1000⟩],
         [⟨"order-1", "m1", 2⟩]⟩ "order-2" none (some "rls")).1.order_id = some "order-2" ∧
    (submitOrder [⟨"m2", "Samosa", 300, some "Snacks", 1⟩] "sess-7" "Bob" "999"
        ⟨[⟨"order-1", "sess-1", "Alice", "12345", "PLACED", 1000⟩],
         [⟨"order-1", "m1", 2⟩]⟩ "order-2" none (some "rls")).2.orders =
      [⟨"order-1", "sess-1", "Alice", "12345", "PLACED", 1000⟩] ++
        [⟨"order-2", "sess-7", "Bob", "999", "PLACED",
          calculateOrderTotal [⟨"m2", "Samosa", 300, some "Snacks", 1⟩]⟩] ∧
    (submitOrder [⟨"m2", "Samosa", 300, some "Snacks", 1⟩] "sess-7" "Bob" "999"
        ⟨[⟨"order-1", "sess-1", "Alice", "12345", "PLACED", 1000⟩],
         [⟨"order-1", "m1", 2⟩]⟩ "order-2" none (some "rls")).2.order_items =
      [⟨"order-1", "m1", 2⟩] :=
  c9_items_failure_keeps_order_row [⟨"m2", "Samosa", 300, some "Snacks", 1⟩] "sess-7" "Bob"
    "999" ⟨[⟨"order-1", "sess-1", "Alice", "12345", "PLACED", 1000⟩], [⟨"order-1", "m1", 2⟩]⟩
    "order-2" "rls" (by decide) (by decide) (by decide) (by decide) (by decide)

/-- Claim C10: the validator decision is invariant under letter-case
changes of either argument, and a successful update writes the uppercase
form of the proposed status both to the store table and to the local
view. -/
theorem c10_case_insensitive_uppercase_writes :
    (∀ c1 c2 n1 n2 : String, strUpper c1 = strUpper c2 → strUpper n1 = strUpper n2 →
      isValidTransition c1 n1 = isValidTransition c2 n2) ∧
    (∀ (view db : List OrderRow) (orderId newStatus : String) (order : OrderRow),
      view.find? (fun o => o.id == orderId) = some order →
      isValidTransition order.status newStatus = true →
      (db.filter fun o => o.id == orderId).length ≠ 0 →
      (updateOrderStatus view db orderId newStatus none true).view =
        view.map (fun o => if o.id == orderId then { o with status := strUpper newStatus } else o) ∧
      (updateOrderStatus view db orderId newStatus none true).db =
        db.map (fun o => if o.id == orderId then { o with status := strUpper newStatus } else o)) := by
  constructor
  · intro c1 c2 n1 n2 h1 h2
    simp only [isValidTransition, h1, h2]
  · intro view db orderId newStatus order hf hv hnz
    refine ⟨?_, ?_⟩ <;> simp [updateOrderStatus, storeUpdateStatus, hf, hv, hnz]

/-- Claim C10 witness: a lowercase proposal is judged like its uppercase
form, and a successful update with the lowercase proposal writes the
uppercase status to view and table. -/
theorem c10_case_insensitive_uppercase_writes_witness :
    isValidTransition "placed" "Accepted" = isValidTransition "PLACED" "ACCEPTED" ∧
    (updateOrderStatus [placedOrder] [placedOrder] "o1" "accepted" none true).view =
      [placedOrder].map
        (fun o => if o.id == "o1" then { o with status := strUpper "accepted" } else o) ∧
    (updateOrderStatus [placedOrder] [placedOrder] "o1" "accepted" none true).db =
      [placedOrder].map
        (fun o => if o.id == "o1" then { o with status := strUpper "accepted" } else o) :=
  ⟨c10_case_insensitive_uppercase_writes.1 "placed" "PLACED" "Accepted" "ACCEPTED"
     (by decide) (by decide),
   c10_case_insensitive_uppercase_writes.2 [placedOrder] [placedOrder] "o1" "accepted"
     placedOrder (by decide) (by decide) (by decide)⟩
